import Mathlib

/-!
Shallow embedding of the dual-button N-Back trial engine
(`src/src/nback_task.cpp`, most complete variant, together with its
`DataCollector` collaborator from `src/src/data_collector.cpp`).

Modelling conventions:
* `millis()` is passed explicitly as a `now : Nat` argument to every step
  function; within one C function all `millis()` calls are taken at the same
  instant (one poll).
* `unsigned long` subtraction `millis() - t` is modelled by `wsub`, the exact
  32-bit wrapping subtraction.
* Button readings are `Bool`s where `true` = HIGH (released, pull-up) and
  `false` = LOW (pressed), exactly as `digitalRead` returns them.
* NeoPixel rendering and serial printing are external collaborators with no
  influence on engine state; those calls are dropped.
* The RNG (`random(n)` / `random(lo,hi)`) is an injected stream: two
  functions `f g : Nat → Nat` supply the successive raw draws, and the
  modulus applied matches Arduino's `random` contract.
* `new int[maxTrials]` can fail (return `nullptr` on AVR); the possibility is
  injected as an `allocOk : Bool` oracle into `configure`.
-/

/-- 32-bit modulus for `unsigned long` arithmetic. -/
def U32 : Nat := 4294967296

/-- Wrapping 32-bit subtraction, the meaning of `a - b` on `unsigned long`. -/
def wsub (a b : Nat) : Nat := (a + (U32 - b % U32)) % U32

/-- `COLOR_COUNT` from the `ColorIndex` enum in nback_task.h. -/
def COLOR_COUNT : Nat := 4

/-- `MAX_DATA_ROWS` from data_collector.h (dual-button variant). -/
def MAX_DATA_ROWS : Nat := 50

/-- Timing parameters (the anonymous `timing` struct). -/
structure Timing where
  stimulusDuration : Nat
  interStimulusInterval : Nat
  feedbackDuration : Nat
  debugColorDuration : Nat
deriving Repr, DecidableEq

/-- Trial state flags (`TrialFlags`). -/
structure TrialFlags where
  awaitingResponse : Bool
  targetTrial : Bool
  feedbackActive : Bool
  buttonPressed : Bool
  responseIsConfirm : Bool
  inInterStimulusInterval : Bool
deriving Repr, DecidableEq

/-- Per-trial timing data (`TrialData`). -/
structure TrialData where
  reactionTime : Nat
  stimulusOnsetTime : Nat
  responseTime : Nat
  stimulusEndTime : Nat
deriving Repr, DecidableEq

/-- Performance metrics (the anonymous `metrics` struct). -/
structure Metrics where
  correctResponses : Nat
  falseAlarms : Nat
  missedTargets : Nat
  totalReactionTime : Nat
  reactionTimeCount : Nat
deriving Repr, DecidableEq

/-- The task state machine states (`TaskState`). -/
inductive TaskState where
  | idle
  | running
  | paused
  | debug
  | dataReady
deriving Repr, DecidableEq

/-- Debounce bookkeeping for one button channel. -/
structure ButtonState where
  lastState : Bool
  lastDebounceTime : Nat
  debounceDelay : Nat
deriving Repr, DecidableEq

/-- One recorded trial row (`NBackTrialData` in data_collector.h). -/
structure NBackTrialData where
  stimulus_number : Nat
  stimulus_color : Nat
  is_target : Bool
  response_made : Bool
  is_correct : Bool
  stimulus_onset_time : Nat
  response_time : Nat
  reaction_time : Nat
  stimulus_end_time : Nat
deriving Repr, DecidableEq, Inhabited

/-- The `DataCollector` collaborator; `trials.length` plays `trial_count`. -/
structure DataCollector where
  study_id : String
  session_number : Nat
  session_start_time : Nat
  trials : List NBackTrialData
deriving Repr, DecidableEq

/-- `DataCollector::reset` — clears all stored trials. -/
def DataCollector.reset (dc : DataCollector) : DataCollector :=
  { dc with trials := [] }

/-- `DataCollector::begin` — stores study info and stamps session start. -/
def DataCollector.begin (dc : DataCollector) (sid : String) (sessionNum : Nat)
    (now : Nat) : DataCollector :=
  { dc with
    study_id := sid
    session_number := sessionNum
    session_start_time := now
    trials := [] }

/-- `DataCollector::recordCompletedTrial` — appends only while capacity
(`MAX_DATA_ROWS`) remains; otherwise silently drops the row. -/
def DataCollector.recordCompletedTrial (dc : DataCollector)
    (r : NBackTrialData) : DataCollector :=
  if dc.trials.length < MAX_DATA_ROWS then { dc with trials := dc.trials ++ [r] }
  else dc

/-- The whole `NBackTask` object state. -/
structure Engine where
  timing : Timing
  nBackLevel : Nat
  maxTrials : Nat
  state : TaskState
  currentTrial : Nat
  trialStartTime : Nat
  stimulusEndTime : Nat
  feedbackStartTime : Nat
  flags : TrialFlags
  trialData : TrialData
  buttonCorrect : ButtonState
  buttonWrong : ButtonState
  debugColorIndex : Nat
  lastColorChangeTime : Nat
  metrics : Metrics
  colorSequence : List Nat
  dataCollector : DataCollector
  study_id : String
deriving Repr, DecidableEq

/-- `NBackTask::resetMetrics`. -/
def resetMetrics (e : Engine) : Engine :=
  { e with
    metrics :=
      { correctResponses := 0
        falseAlarms := 0
        missedTargets := 0
        totalReactionTime := 0
        reactionTimeCount := 0 } }

/-- First pass of `NBackTask::generateSequence`: every position filled with
`random(COLOR_COUNT)`, the raw draws coming from the stream `f`. -/
def initialFill (maxTrials : Nat) (f : Nat → Nat) : List Nat :=
  (List.range maxTrials).map (fun i => f i % COLOR_COUNT)

/-- The positions chosen by the second pass of `generateSequence`:
`maxTrials / 4` draws of `random(nBackLevel, maxTrials)` from stream `g`. -/
def chosenPositions (nBackLevel maxTrials : Nat) (g : Nat → Nat) : List Nat :=
  (List.range (maxTrials / 4)).map
    (fun k => nBackLevel + g k % (maxTrials - nBackLevel))

/-- One overwrite step of `generateSequence`:
`colorSequence[pos] = colorSequence[pos - nBackLevel]`. -/
def overwriteStep (nBackLevel : Nat) (seq : List Nat) (pos : Nat) : List Nat :=
  seq.set pos (seq.getD (pos - nBackLevel) 0)

/-- `NBackTask::generateSequence`, the RNG injected as streams `f` (fill
draws) and `g` (position draws). -/
def generateSequence (nBackLevel maxTrials : Nat) (f g : Nat → Nat) :
    List Nat :=
  (chosenPositions nBackLevel maxTrials g).foldl (overwriteStep nBackLevel)
    (initialFill maxTrials f)

/-- The target-marking condition printed by `generateSequence`
(`i >= nBackLevel && colorSequence[i] == colorSequence[i - nBackLevel]`). -/
def sequenceTargetMark (nBackLevel : Nat) (seq : List Nat) (i : Nat) : Bool :=
  decide (nBackLevel ≤ i) && decide (seq.getD i 0 = seq.getD (i - nBackLevel) 0)

/-- `NBackTask::startNextTrial`. -/
def startNextTrial (now : Nat) (e : Engine) : Engine :=
  { e with
    trialStartTime := now
    trialData := { e.trialData with
      stimulusOnsetTime := wsub now e.dataCollector.session_start_time }
    flags := { e.flags with
      awaitingResponse := true
      buttonPressed := false
      targetTrial :=
        decide (e.nBackLevel ≤ e.currentTrial) &&
        decide (e.colorSequence.getD e.currentTrial 0 =
                e.colorSequence.getD (e.currentTrial - e.nBackLevel) 0) } }

/-- `NBackTask::evaluateTrialOutcome`. -/
def evaluateTrialOutcome (now : Nat) (e : Engine) : Engine :=
  let td := { e.trialData with
    stimulusEndTime := wsub now e.dataCollector.session_start_time }
  let outcome : Metrics × Bool :=
    if !e.flags.buttonPressed then
      ({ e.metrics with missedTargets := e.metrics.missedTargets + 1 }, false)
    else
      let m0 := { e.metrics with
        totalReactionTime := e.metrics.totalReactionTime + td.reactionTime
        reactionTimeCount := e.metrics.reactionTimeCount + 1 }
      if e.flags.targetTrial && decide (e.nBackLevel ≤ e.currentTrial) then
        if e.flags.responseIsConfirm then
          ({ m0 with correctResponses := m0.correctResponses + 1 }, true)
        else
          ({ m0 with missedTargets := m0.missedTargets + 1 }, false)
      else if !e.flags.targetTrial then
        if e.flags.responseIsConfirm then
          ({ m0 with falseAlarms := m0.falseAlarms + 1 }, false)
        else
          (m0, true)
      else (m0, false)
  let row : NBackTrialData :=
    { stimulus_number := e.currentTrial + 1
      stimulus_color := e.colorSequence.getD e.currentTrial 0
      is_target := e.flags.targetTrial
      response_made := e.flags.buttonPressed
      is_correct := outcome.2
      stimulus_onset_time := td.stimulusOnsetTime
      response_time := if e.flags.buttonPressed then td.responseTime else 0
      reaction_time := if e.flags.buttonPressed then td.reactionTime else 0
      stimulus_end_time := td.stimulusEndTime }
  { e with
    trialData := td
    metrics := outcome.1
    dataCollector := e.dataCollector.recordCompletedTrial row }

/-- `NBackTask::endTask` (rendering and reporting are print-only). -/
def endTask (e : Engine) : Engine :=
  { e with state := TaskState.dataReady }

/-- `NBackTask::manageTrials`. -/
def manageTrials (now : Nat) (e : Engine) : Engine :=
  if !e.flags.awaitingResponse && !e.flags.inInterStimulusInterval then e
  else
    let e1 :=
      if e.flags.awaitingResponse &&
         decide (e.timing.stimulusDuration < wsub now e.trialStartTime) then
        let ea := { e with
          flags := { e.flags with awaitingResponse := false }
          stimulusEndTime := now }
        let eb := evaluateTrialOutcome now ea
        { eb with flags := { eb.flags with inInterStimulusInterval := true } }
      else e
    if e1.flags.inInterStimulusInterval &&
       decide (e1.timing.interStimulusInterval < wsub now e1.stimulusEndTime) then
      let e2 := { e1 with
        flags := { e1.flags with inInterStimulusInterval := false } }
      if decide (e2.currentTrial < e2.maxTrials - 1) then
        startNextTrial now { e2 with currentTrial := e2.currentTrial + 1 }
      else
        endTask e2
    else e1

/-- `NBackTask::handleVisualFeedback` (pixel writes dropped). -/
def handleVisualFeedback (startFeedback : Bool) (now : Nat) (e : Engine) :
    Engine :=
  if startFeedback then
    { e with
      flags := { e.flags with feedbackActive := true }
      feedbackStartTime := now }
  else if e.flags.feedbackActive &&
          decide (e.timing.feedbackDuration < wsub now e.feedbackStartTime) then
    { e with flags := { e.flags with feedbackActive := false } }
  else e

/-- `NBackTask::handleButtonPress`.  `readCorrect`/`readWrong` are the raw
`digitalRead` levels for this poll (`true` = HIGH = released). -/
def handleButtonPress (now : Nat) (readCorrect readWrong : Bool) (e : Engine) :
    Engine :=
  if e.state != TaskState.running || e.flags.feedbackActive ||
     e.flags.buttonPressed then e
  else
    let e1 :=
      if decide (e.buttonCorrect.debounceDelay <
                 wsub now e.buttonCorrect.lastDebounceTime) &&
         !readCorrect && e.buttonCorrect.lastState &&
         e.flags.awaitingResponse then
        handleVisualFeedback true now
          { e with
            trialData := { e.trialData with
              reactionTime := wsub now e.trialStartTime
              responseTime := wsub now e.dataCollector.session_start_time }
            flags := { e.flags with
              buttonPressed := true
              responseIsConfirm := true } }
      else e
    let e2 :=
      if decide (e1.buttonWrong.debounceDelay <
                 wsub now e1.buttonWrong.lastDebounceTime) &&
         !readWrong && e1.buttonWrong.lastState &&
         e1.flags.awaitingResponse then
        handleVisualFeedback true now
          { e1 with
            trialData := { e1.trialData with
              reactionTime := wsub now e1.trialStartTime
              responseTime := wsub now e1.dataCollector.session_start_time }
            flags := { e1.flags with
              buttonPressed := true
              responseIsConfirm := false } }
      else e1
    let e3 := { e2 with
      buttonCorrect := { e2.buttonCorrect with
        lastDebounceTime :=
          if readCorrect != e2.buttonCorrect.lastState then now
          else e2.buttonCorrect.lastDebounceTime }
      buttonWrong := { e2.buttonWrong with
        lastDebounceTime :=
          if readWrong != e2.buttonWrong.lastState then now
          else e2.buttonWrong.lastDebounceTime } }
    { e3 with
      buttonCorrect := { e3.buttonCorrect with lastState := readCorrect }
      buttonWrong := { e3.buttonWrong with lastState := readWrong } }

/-- `NBackTask::startTask` (the RNG streams feed `generateSequence`). -/
def startTask (now : Nat) (f g : Nat → Nat) (e : Engine) : Engine :=
  let e1 := resetMetrics e
  let e2 := { e1 with
    currentTrial := 0
    flags := { e1.flags with
      awaitingResponse := false
      targetTrial := false
      feedbackActive := false
      inInterStimulusInterval := false } }
  let e3 := { e2 with
    colorSequence := generateSequence e2.nBackLevel e2.maxTrials f g }
  let e4 := { e3 with dataCollector := e3.dataCollector.reset }
  let e5 := { e4 with state := TaskState.running }
  startNextTrial now e5

/-- `NBackTask::pauseTask`. -/
def pauseTask (pause : Bool) (e : Engine) : Engine :=
  { e with state := if pause then TaskState.paused else TaskState.running }

/-- `NBackTask::enterDebugMode`. -/
def enterDebugMode (now : Nat) (e : Engine) : Engine :=
  { e with
    state := TaskState.debug
    debugColorIndex := 0
    lastColorChangeTime := now
    flags := { e.flags with feedbackActive := false } }

/-- `NBackTask::sendData` (the data dump itself is a serial print). -/
def sendData (e : Engine) : Engine :=
  { e with state := TaskState.idle }

/-- `NBackTask::configure`.  `allocOk` is the oracle for
`new int[maxTrials]`; `false` models the nullptr-return failure path. -/
def configure (stimDuration interStimulusInt nBackLvl numTrials : Nat)
    (studyId : String) (sessionNum : Nat) (allocOk : Bool) (now : Nat)
    (f g : Nat → Nat) (e : Engine) : Bool × Engine :=
  if stimDuration < 100 ∨ interStimulusInt < 100 ∨ nBackLvl < 1 ∨
     numTrials < 5 ∨ 50 < numTrials ∨ studyId.length = 0 then
    (false, e)
  else if e.state = TaskState.running ∨ e.state = TaskState.paused then
    (false, e)
  else
    let e1 := { e with
      timing := { e.timing with
        stimulusDuration := stimDuration
        interStimulusInterval := interStimulusInt }
      nBackLevel := nBackLvl }
    if numTrials ≠ e1.maxTrials then
      let e2 := { e1 with maxTrials := numTrials, colorSequence := [] }
      if !allocOk then (false, e2)
      else
        let sid := studyId.take 9
        (true, { e2 with
          study_id := sid
          dataCollector := e2.dataCollector.begin sid sessionNum now
          colorSequence := generateSequence e2.nBackLevel e2.maxTrials f g })
    else
      let sid := studyId.take 9
      (true, { e1 with
        study_id := sid
        dataCollector := e1.dataCollector.begin sid sessionNum now
        colorSequence := generateSequence e1.nBackLevel e1.maxTrials f g })

/-- The serial commands the dispatcher recognises (tokenizing is the external
parser; this is the command contract). -/
inductive Command where
  | start
  | pause
  | debug
  | exitDebug
  | exitTask
  | getData
  | config (stimDuration interStimulusInt nBackLvl numTrials : Nat)
      (studyId : String) (sessionNum : Nat) (allocOk : Bool)
  | unknown
deriving Repr, DecidableEq

/-- The dispatch body of `NBackTask::processSerialCommands` for one parsed
command. -/
def processCommand (now : Nat) (f g : Nat → Nat) (c : Command) (e : Engine) :
    Engine :=
  match c with
  | Command.start => startTask now f g e
  | Command.pause =>
      if e.state = TaskState.running ∨ e.state = TaskState.paused then
        pauseTask (e.state != TaskState.paused) e
      else e
  | Command.debug => enterDebugMode now e
  | Command.exitDebug =>
      if e.state = TaskState.debug then { e with state := TaskState.idle }
      else e
  | Command.exitTask =>
      if e.state = TaskState.running ∨ e.state = TaskState.paused then
        { e with
          state := TaskState.idle
          dataCollector := e.dataCollector.reset }
      else if e.state = TaskState.dataReady then
        { e with
          state := TaskState.idle
          dataCollector := e.dataCollector.reset }
      else e
  | Command.getData =>
      if e.state = TaskState.dataReady then sendData e else e
  | Command.config sd isi n nt sid sn ok =>
      (configure sd isi n nt sid sn ok now f g e).2
  | Command.unknown => e

/-- `NBackTask::runDebugMode` (prints dropped). -/
def runDebugMode (now : Nat) (readCorrect readWrong : Bool) (e : Engine) :
    Engine :=
  let e0 := handleVisualFeedback false now e
  if e0.flags.feedbackActive then e0
  else
    let e1 :=
      if decide (e0.timing.debugColorDuration <
                 wsub now e0.lastColorChangeTime) then
        { e0 with
          debugColorIndex := (e0.debugColorIndex + 1) % COLOR_COUNT
          lastColorChangeTime := now }
      else e0
    let e2 :=
      if decide (e1.buttonCorrect.debounceDelay <
                 wsub now e1.buttonCorrect.lastDebounceTime) &&
         !readCorrect && e1.buttonCorrect.lastState then
        handleVisualFeedback true now e1
      else e1
    let e3 :=
      if decide (e2.buttonWrong.debounceDelay <
                 wsub now e2.buttonWrong.lastDebounceTime) &&
         !readWrong && e2.buttonWrong.lastState then
        handleVisualFeedback true now e2
      else e2
    let e4 := { e3 with
      buttonCorrect := { e3.buttonCorrect with
        lastDebounceTime :=
          if readCorrect != e3.buttonCorrect.lastState then now
          else e3.buttonCorrect.lastDebounceTime }
      buttonWrong := { e3.buttonWrong with
        lastDebounceTime :=
          if readWrong != e3.buttonWrong.lastState then now
          else e3.buttonWrong.lastDebounceTime } }
    { e4 with
      buttonCorrect := { e4.buttonCorrect with lastState := readCorrect }
      buttonWrong := { e4.buttonWrong with lastState := readWrong } }

/-- One poll's inputs: the clock, at most one pending serial command, and the
two raw button levels (`true` = HIGH = released). -/
structure PollInput where
  now : Nat
  command : Option Command
  readCorrect : Bool
  readWrong : Bool
deriving Repr, DecidableEq

/-- One iteration of `NBackTask::loop`. -/
def loopStep (f g : Nat → Nat) (inp : PollInput) (e : Engine) : Engine :=
  let e1 :=
    match inp.command with
    | some c => processCommand inp.now f g c e
    | none => e
  match e1.state with
  | TaskState.debug => runDebugMode inp.now inp.readCorrect inp.readWrong e1
  | TaskState.paused => e1
  | TaskState.running =>
      let e2 := handleVisualFeedback false inp.now e1
      let e3 := if !e2.flags.feedbackActive then manageTrials inp.now e2 else e2
      handleButtonPress inp.now inp.readCorrect inp.readWrong e3
  | TaskState.idle => e1
  | TaskState.dataReady => e1

/-- Folding a list of polls through `loopStep`. -/
def runPolls (f g : Nat → Nat) (inps : List PollInput) (e : Engine) : Engine :=
  inps.foldl (fun acc i => loopStep f g i acc) e

/-! ### Concrete fixtures used by counterexamples and witnesses -/

/-- The timing defaults installed by the `NBackTask` constructor. -/
def timingDefault : Timing :=
  { stimulusDuration := 2000
    interStimulusInterval := 2000
    feedbackDuration := 100
    debugColorDuration := 1000 }

/-- All trial flags cleared, as in the constructor. -/
def flagsClear : TrialFlags :=
  { awaitingResponse := false
    targetTrial := false
    feedbackActive := false
    buttonPressed := false
    responseIsConfirm := false
    inInterStimulusInterval := false }

/-- Zeroed per-trial data, as in the constructor. -/
def trialDataZero : TrialData :=
  { reactionTime := 0
    stimulusOnsetTime := 0
    responseTime := 0
    stimulusEndTime := 0 }

/-- Zeroed metrics. -/
def metricsZero : Metrics :=
  { correctResponses := 0
    falseAlarms := 0
    missedTargets := 0
    totalReactionTime := 0
    reactionTimeCount := 0 }

/-- Constructor state of one debounce channel (HIGH, delay 50 ms). -/
def buttonInit : ButtonState :=
  { lastState := true
    lastDebounceTime := 0
    debounceDelay := 50 }

/-- A fresh `DataCollector`. -/
def collectorInit : DataCollector :=
  { study_id := ""
    session_number := 0
    session_start_time := 0
    trials := [] }

/-- The engine right after the constructor (sequence not yet allocated). -/
def engineInit : Engine :=
  { timing := timingDefault
    nBackLevel := 2
    maxTrials := 30
    state := TaskState.idle
    currentTrial := 0
    trialStartTime := 0
    stimulusEndTime := 0
    feedbackStartTime := 0
    flags := flagsClear
    trialData := trialDataZero
    buttonCorrect := buttonInit
    buttonWrong := buttonInit
    debugColorIndex := 0
    lastColorChangeTime := 0
    metrics := metricsZero
    colorSequence := []
    dataCollector := collectorInit
    study_id := "DEFAULT" }

/-- Identity fill stream: position `i` draws raw value `i`. -/
def fDemo : Nat → Nat := fun i => i

/-- Position stream that always draws 1. -/
def gDemo : Nat → Nat := fun _ => 1

/-- Position stream drawing 1 then 0. -/
def gDemo2 : Nat → Nat := fun k => if k = 0 then 1 else 0

/-- Engine configured for a 5-trial 1-back session (session start at 500). -/
def eC2cfg : Engine :=
  (configure 100 100 1 5 "S" 1 true 500 fDemo gDemo engineInit).2

/-- A full 5-trial session: start, one wrong-channel press during trial 1,
then no further presses until completion. -/
def pollsC2 : List PollInput :=
  [ { now := 1000, command := some Command.start, readCorrect := true, readWrong := true }
  , { now := 1100, command := none, readCorrect := true, readWrong := false }
  , { now := 1250, command := none, readCorrect := true, readWrong := true }
  , { now := 1400, command := none, readCorrect := true, readWrong := true }
  , { now := 1550, command := none, readCorrect := true, readWrong := true }
  , { now := 1700, command := none, readCorrect := true, readWrong := true }
  , { now := 1850, command := none, readCorrect := true, readWrong := true }
  , { now := 2000, command := none, readCorrect := true, readWrong := true }
  , { now := 2150, command := none, readCorrect := true, readWrong := true }
  , { now := 2300, command := none, readCorrect := true, readWrong := true }
  , { now := 2450, command := none, readCorrect := true, readWrong := true }
  , { now := 2600, command := none, readCorrect := true, readWrong := true } ]

/-- The engine at the end of that session. -/
def eC2final : Engine := runPolls fDemo gDemo pollsC2 eC2cfg

/-- Engine state at the instant a silent non-target trial's window has just
been closed (trial index 1 of the 1-back sequence [0,1,1,3,0]). -/
def eC1 : Engine :=
  { engineInit with
    state := TaskState.running
    nBackLevel := 1
    maxTrials := 5
    colorSequence := [0, 1, 1, 3, 0]
    currentTrial := 1 }

/-- Result of a `configure` whose sequence-buffer allocation fails. -/
def eC4 : Prod Bool Engine :=
  configure 1500 1000 3 40 "S" 1 false 500 fDemo gDemo engineInit

/-- A running engine in the middle of a response window (stimulus shown at
1000 ms, session start 500 ms). -/
def eC8 : Engine :=
  { engineInit with
    state := TaskState.running
    nBackLevel := 1
    maxTrials := 5
    colorSequence := [0, 1, 1, 3, 0]
    currentTrial := 0
    trialStartTime := 1000
    flags := { flagsClear with awaitingResponse := true }
    dataCollector := { collectorInit with session_start_time := 500 } }

/-- `eC8` after a `pause` command at 1500 ms. -/
def eC8p : Engine :=
  loopStep fDemo gDemo
    { now := 1500, command := some Command.pause, readCorrect := true,
      readWrong := true } eC8

/-- `eC8p` after an idle poll at 4000 ms while paused. -/
def eC8q : Engine :=
  loopStep fDemo gDemo
    { now := 4000, command := none, readCorrect := true, readWrong := true }
    eC8p

/-- `eC8q` after the resuming `pause` command at 5000 ms. -/
def eC8r : Engine :=
  loopStep fDemo gDemo
    { now := 5000, command := some Command.pause, readCorrect := true,
      readWrong := true } eC8q

/-- A sample recorded row. -/
def rowEx : NBackTrialData :=
  { stimulus_number := 1
    stimulus_color := 0
    is_target := false
    response_made := true
    is_correct := true
    stimulus_onset_time := 100
    response_time := 200
    reaction_time := 100
    stimulus_end_time := 300 }

/-- A running mid-session engine with nonzero metrics and one recorded row. -/
def eRun : Engine :=
  { engineInit with
    state := TaskState.running
    nBackLevel := 1
    maxTrials := 5
    colorSequence := [0, 1, 1, 3, 0]
    currentTrial := 4
    metrics :=
      { correctResponses := 3
        falseAlarms := 1
        missedTargets := 2
        totalReactionTime := 900
        reactionTimeCount := 4 }
    dataCollector :=
      { study_id := "S"
        session_number := 1
        session_start_time := 500
        trials := [rowEx] } }

/-- A paused engine whose trial already has a recorded press. -/
def eW3 : Engine :=
  { engineInit with
    state := TaskState.paused
    flags := { flagsClear with buttonPressed := true } }

/-- A quiet poll: no command, both buttons released. -/
def inpW : PollInput :=
  { now := 2000, command := none, readCorrect := true, readWrong := true }

/-- An engine whose trial has a press with reaction time 123 ms. -/
def eW10 : Engine :=
  { engineInit with
    flags := { flagsClear with buttonPressed := true }
    trialData := { trialDataZero with reactionTime := 123 } }

/-- Number of recorded rows flagged as targets. -/
def countTargetRecords (rs : List NBackTrialData) : Nat :=
  (rs.filter (fun r => r.is_target)).length

/-- Number of recorded non-target rows with a response. -/
def countRespondedNonTargetRecords (rs : List NBackTrialData) : Nat :=
  (rs.filter (fun r => !r.is_target && r.response_made)).length

/-- Number of recorded non-target rows without a response. -/
def countSilentNonTargetRecords (rs : List NBackTrialData) : Nat :=
  (rs.filter (fun r => !r.is_target && !r.response_made)).length

/-- Number of recorded rows the engine scored as false alarms (non-target,
responded, and marked incorrect). -/
def countFalseAlarmRecords (rs : List NBackTrialData) : Nat :=
  (rs.filter (fun r => !r.is_target && r.response_made && !r.is_correct)).length

/-- The metrics/record bookkeeping relation that actually holds at the end of
every session. -/
def sessionInvariant (e : Engine) : Prop :=
  e.metrics.correctResponses + e.metrics.missedTargets =
    countTargetRecords e.dataCollector.trials +
    countSilentNonTargetRecords e.dataCollector.trials ∧
  e.metrics.falseAlarms = countFalseAlarmRecords e.dataCollector.trials

/-! ### Frame lemmas -/

lemma wsub_self (a : Nat) : wsub a a = 0 := by
  unfold wsub U32
  omega

@[simp] lemma evaluateTrialOutcome_flags (now : Nat) (e : Engine) :
    (evaluateTrialOutcome now e).flags = e.flags := rfl

@[simp] lemma evaluateTrialOutcome_state (now : Nat) (e : Engine) :
    (evaluateTrialOutcome now e).state = e.state := rfl

@[simp] lemma evaluateTrialOutcome_currentTrial (now : Nat) (e : Engine) :
    (evaluateTrialOutcome now e).currentTrial = e.currentTrial := rfl

@[simp] lemma evaluateTrialOutcome_stimulusEndTime (now : Nat) (e : Engine) :
    (evaluateTrialOutcome now e).stimulusEndTime = e.stimulusEndTime := rfl

@[simp] lemma evaluateTrialOutcome_trialStartTime (now : Nat) (e : Engine) :
    (evaluateTrialOutcome now e).trialStartTime = e.trialStartTime := rfl

@[simp] lemma evaluateTrialOutcome_timing (now : Nat) (e : Engine) :
    (evaluateTrialOutcome now e).timing = e.timing := rfl

@[simp] lemma evaluateTrialOutcome_maxTrials (now : Nat) (e : Engine) :
    (evaluateTrialOutcome now e).maxTrials = e.maxTrials := rfl

@[simp] lemma evaluateTrialOutcome_reactionTime (now : Nat) (e : Engine) :
    (evaluateTrialOutcome now e).trialData.reactionTime =
      e.trialData.reactionTime := rfl

@[simp] lemma evaluateTrialOutcome_responseTime (now : Nat) (e : Engine) :
    (evaluateTrialOutcome now e).trialData.responseTime =
      e.trialData.responseTime := rfl

@[simp] lemma handleVisualFeedback_trialData (s : Bool) (now : Nat) (e : Engine) :
    (handleVisualFeedback s now e).trialData = e.trialData := by
  unfold handleVisualFeedback
  repeat' split
  all_goals rfl

@[simp] lemma handleVisualFeedback_currentTrial (s : Bool) (now : Nat) (e : Engine) :
    (handleVisualFeedback s now e).currentTrial = e.currentTrial := by
  unfold handleVisualFeedback
  repeat' split
  all_goals rfl

@[simp] lemma handleVisualFeedback_state (s : Bool) (now : Nat) (e : Engine) :
    (handleVisualFeedback s now e).state = e.state := by
  unfold handleVisualFeedback
  repeat' split
  all_goals rfl

@[simp] lemma handleVisualFeedback_buttonPressed (s : Bool) (now : Nat) (e : Engine) :
    (handleVisualFeedback s now e).flags.buttonPressed =
      e.flags.buttonPressed := by
  unfold handleVisualFeedback
  repeat' split
  all_goals rfl

@[simp] lemma handleVisualFeedback_responseIsConfirm (s : Bool) (now : Nat) (e : Engine) :
    (handleVisualFeedback s now e).flags.responseIsConfirm =
      e.flags.responseIsConfirm := by
  unfold handleVisualFeedback
  repeat' split
  all_goals rfl

@[simp] lemma handleVisualFeedback_awaitingResponse (s : Bool) (now : Nat) (e : Engine) :
    (handleVisualFeedback s now e).flags.awaitingResponse =
      e.flags.awaitingResponse := by
  unfold handleVisualFeedback
  repeat' split
  all_goals rfl

@[simp] lemma handleVisualFeedback_dataCollector (s : Bool) (now : Nat) (e : Engine) :
    (handleVisualFeedback s now e).dataCollector = e.dataCollector := by
  unfold handleVisualFeedback
  repeat' split
  all_goals rfl

lemma handleButtonPress_of_pressed (now : Nat) (rc rw : Bool) (e : Engine)
    (h : e.flags.buttonPressed = true) :
    handleButtonPress now rc rw e = e := by
  unfold handleButtonPress
  simp [h]

lemma handleButtonPress_of_not_running (now : Nat) (rc rw : Bool) (e : Engine)
    (h : e.state ≠ TaskState.running) :
    handleButtonPress now rc rw e = e := by
  unfold handleButtonPress
  simp [bne_iff_ne, h]

@[simp] lemma handleButtonPress_currentTrial (now : Nat) (rc rw : Bool) (e : Engine) :
    (handleButtonPress now rc rw e).currentTrial = e.currentTrial := by
  simp [handleButtonPress, apply_ite Engine.currentTrial]

@[simp] lemma handleButtonPress_state (now : Nat) (rc rw : Bool) (e : Engine) :
    (handleButtonPress now rc rw e).state = e.state := by
  simp [handleButtonPress, apply_ite Engine.state]

@[simp] lemma runDebugMode_trialData (now : Nat) (rc rw : Bool) (e : Engine) :
    (runDebugMode now rc rw e).trialData = e.trialData := by
  simp [runDebugMode, apply_ite Engine.trialData]

@[simp] lemma runDebugMode_buttonPressed (now : Nat) (rc rw : Bool) (e : Engine) :
    (runDebugMode now rc rw e).flags.buttonPressed =
      e.flags.buttonPressed := by
  simp [runDebugMode, apply_ite (fun x : Engine => x.flags.buttonPressed)]

@[simp] lemma runDebugMode_responseIsConfirm (now : Nat) (rc rw : Bool) (e : Engine) :
    (runDebugMode now rc rw e).flags.responseIsConfirm =
      e.flags.responseIsConfirm := by
  simp [runDebugMode, apply_ite (fun x : Engine => x.flags.responseIsConfirm)]

@[simp] lemma runDebugMode_currentTrial (now : Nat) (rc rw : Bool) (e : Engine) :
    (runDebugMode now rc rw e).currentTrial = e.currentTrial := by
  simp [runDebugMode, apply_ite Engine.currentTrial]

@[simp] lemma startNextTrial_dataCollector (now : Nat) (e : Engine) :
    (startNextTrial now e).dataCollector = e.dataCollector := rfl

@[simp] lemma endTask_dataCollector (e : Engine) :
    (endTask e).dataCollector = e.dataCollector := rfl

lemma manageTrials_shape (now : Nat) (e : Engine) :
    ((manageTrials now e).trialData.reactionTime = e.trialData.reactionTime ∧
     (manageTrials now e).trialData.responseTime = e.trialData.responseTime ∧
     (manageTrials now e).flags.responseIsConfirm = e.flags.responseIsConfirm ∧
     (manageTrials now e).flags.buttonPressed = e.flags.buttonPressed) ∨
    (manageTrials now e).currentTrial = e.currentTrial + 1 := by
  simp only [manageTrials]
  repeat' split
  all_goals first
    | exact Or.inl ⟨rfl, rfl, rfl, rfl⟩
    | exact Or.inr rfl

lemma evaluateTrialOutcome_trials_length (now : Nat) (e : Engine) :
    (evaluateTrialOutcome now e).dataCollector.trials.length =
      if e.dataCollector.trials.length < MAX_DATA_ROWS then
        e.dataCollector.trials.length + 1
      else e.dataCollector.trials.length := by
  simp only [evaluateTrialOutcome, DataCollector.recordCompletedTrial]
  split <;> simp

/-! ### Claim C1 -/

/-- C1 counterexample: at a silent non-target trial (`buttonPressed = false`,
`targetTrial = false`) the evaluation step increments `missedTargets` and
records `isCorrect = false`, not a correct rejection as the claim states. -/
theorem C1_counterexample :
    eC1.flags.buttonPressed = false ∧ eC1.flags.targetTrial = false ∧
    (evaluateTrialOutcome 1550 eC1).metrics.missedTargets =
      eC1.metrics.missedTargets + 1 ∧
    ((evaluateTrialOutcome 1550 eC1).dataCollector.trials.getD 0 default).is_correct
      = false ∧
    ((evaluateTrialOutcome 1550 eC1).dataCollector.trials.getD 0 default).response_made
      = false := by
  decide

/-- C1 (amended): a trial that times out with no press is recorded with
`responseMade = false`, `reactionTime = 0`, `isCorrect = false`, and is always
classified as a missed target (only `missedTargets` is incremented),
regardless of whether `targetTrial` is set. -/
theorem C1_theorem (now : Nat) (e : Engine)
    (h : e.flags.buttonPressed = false)
    (hcap : e.dataCollector.trials.length < MAX_DATA_ROWS) :
    (evaluateTrialOutcome now e).metrics.missedTargets =
      e.metrics.missedTargets + 1 ∧
    (evaluateTrialOutcome now e).metrics.correctResponses =
      e.metrics.correctResponses ∧
    (evaluateTrialOutcome now e).metrics.falseAlarms = e.metrics.falseAlarms ∧
    ∃ row : NBackTrialData,
      (evaluateTrialOutcome now e).dataCollector.trials =
        e.dataCollector.trials ++ [row] ∧
      row.response_made = false ∧ row.reaction_time = 0 ∧
      row.is_correct = false ∧ row.is_target = e.flags.targetTrial := by
  simp [evaluateTrialOutcome, h, DataCollector.recordCompletedTrial, hcap]

/-- C1 witness: `C1_theorem` at the concrete engine `eC1` and time 1550. -/
theorem C1_witness :
    (evaluateTrialOutcome 1550 eC1).metrics.missedTargets =
      eC1.metrics.missedTargets + 1 ∧
    (evaluateTrialOutcome 1550 eC1).metrics.correctResponses =
      eC1.metrics.correctResponses ∧
    (evaluateTrialOutcome 1550 eC1).metrics.falseAlarms =
      eC1.metrics.falseAlarms ∧
    ∃ row : NBackTrialData,
      (evaluateTrialOutcome 1550 eC1).dataCollector.trials =
        eC1.dataCollector.trials ++ [row] ∧
      row.response_made = false ∧ row.reaction_time = 0 ∧
      row.is_correct = false ∧ row.is_target = eC1.flags.targetTrial :=
  C1_theorem 1550 eC1 (by decide) (by decide)

/-! ### Claim C2 -/

/-- C2 counterexample: a real 5-trial session ending in DATA_READY where
`correctResponses + missedTargets = 4` but only one recorded row is a target,
and `falseAlarms = 0` while one non-target row has `responseMade = true`
(a wrong-channel press). -/
theorem C2_counterexample :
    eC2final.state = TaskState.dataReady ∧
    eC2final.dataCollector.trials.length = 5 ∧
    eC2final.metrics.correctResponses + eC2final.metrics.missedTargets ≠
      countTargetRecords eC2final.dataCollector.trials ∧
    eC2final.metrics.falseAlarms ≠
      countRespondedNonTargetRecords eC2final.dataCollector.trials := by
  decide

/-- C2 (amended): starting from a session start (which zeroes metrics and
records), every evaluation step preserves the invariant that
`correctResponses + missedTargets` equals the number of target rows plus the
number of silent non-target rows, and `falseAlarms` equals the number of
non-target responded rows marked incorrect (confirm-channel presses). -/
theorem C2_theorem :
    (∀ (now : Nat) (f g : Nat → Nat) (e : Engine),
       sessionInvariant (startTask now f g e)) ∧
    (∀ (now : Nat) (e : Engine),
       e.dataCollector.trials.length < MAX_DATA_ROWS →
       (e.flags.targetTrial = true → e.nBackLevel ≤ e.currentTrial) →
       sessionInvariant e → sessionInvariant (evaluateTrialOutcome now e)) := by
  constructor
  · intro now f g e
    simp [sessionInvariant, startTask, startNextTrial, resetMetrics,
          DataCollector.reset, countTargetRecords, countSilentNonTargetRecords,
          countFalseAlarmRecords]
  · intro now e hcap htgt hinv
    obtain ⟨h1, h2⟩ := hinv
    by_cases hbp : e.flags.buttonPressed <;>
      by_cases htt : e.flags.targetTrial <;>
      by_cases hric : e.flags.responseIsConfirm <;>
      first
      | (simp [sessionInvariant, evaluateTrialOutcome,
               DataCollector.recordCompletedTrial, hcap, hbp, htt, hric,
               htgt htt, countTargetRecords, countSilentNonTargetRecords,
               countFalseAlarmRecords, List.filter_append] at h1 h2 ⊢
         omega)
      | (simp [sessionInvariant, evaluateTrialOutcome,
               DataCollector.recordCompletedTrial, hcap, hbp, htt, hric,
               countTargetRecords, countSilentNonTargetRecords,
               countFalseAlarmRecords, List.filter_append] at h1 h2 ⊢
         omega)

/-- C2 witness: `C2_theorem` at a fresh session start and at the concrete
engine `eC1`. -/
theorem C2_witness :
    sessionInvariant (startTask 1000 fDemo gDemo engineInit) ∧
    sessionInvariant (evaluateTrialOutcome 1550 eC1) :=
  ⟨C2_theorem.1 1000 fDemo gDemo engineInit,
   C2_theorem.2 1550 eC1 (by decide) (by decide)
     (by exact ⟨by decide, by decide⟩)⟩

/-! ### Claim C3 -/

/-- C3: (1) once `buttonPressed` is set, `handleButtonPress` ignores every
later poll entirely; (2) any commandless poll that stays on the same trial
leaves the first press's `reactionTime`, `responseTime` and
`responseIsConfirm` untouched and `buttonPressed` set; (3) `manageTrials`
appends a record exactly when the response window times out (one record,
clearing `awaitingResponse`) and never otherwise, so each trial yields
exactly one record. -/
theorem C3_theorem :
    (∀ (now : Nat) (rc rw : Bool) (e : Engine),
       e.flags.buttonPressed = true → handleButtonPress now rc rw e = e) ∧
    (∀ (f g : Nat → Nat) (inp : PollInput) (e : Engine),
       inp.command = none → e.flags.buttonPressed = true →
       (loopStep f g inp e).currentTrial = e.currentTrial →
       (loopStep f g inp e).trialData.reactionTime = e.trialData.reactionTime ∧
       (loopStep f g inp e).trialData.responseTime = e.trialData.responseTime ∧
       (loopStep f g inp e).flags.responseIsConfirm = e.flags.responseIsConfirm ∧
       (loopStep f g inp e).flags.buttonPressed = true) ∧
    (∀ (now : Nat) (e : Engine),
       (¬ (e.flags.awaitingResponse = true ∧
           e.timing.stimulusDuration < wsub now e.trialStartTime) →
         (manageTrials now e).dataCollector.trials = e.dataCollector.trials) ∧
       ((e.flags.awaitingResponse = true ∧
         e.timing.stimulusDuration < wsub now e.trialStartTime) →
         (manageTrials now e).flags.awaitingResponse = false ∧
         (e.dataCollector.trials.length < MAX_DATA_ROWS →
           (manageTrials now e).dataCollector.trials.length =
             e.dataCollector.trials.length + 1))) := by
  refine ⟨?_, ?_, ?_⟩
  · intro now rc rw e h
    exact handleButtonPress_of_pressed now rc rw e h
  · intro f g inp e hc hbp hct
    simp only [loopStep, hc] at hct ⊢
    cases hs : e.state
    case idle =>
      simp only [hs] at hct ⊢
      simp [hbp]
    case dataReady =>
      simp only [hs] at hct ⊢
      simp [hbp]
    case paused =>
      simp only [hs] at hct ⊢
      simp [hbp]
    case debug =>
      simp only [hs] at hct ⊢
      simp [hbp]
    case running =>
      simp only [hs] at hct ⊢
      by_cases hfb : (handleVisualFeedback false inp.now e).flags.feedbackActive = true
      · simp only [hfb, Bool.not_true, Bool.false_eq_true, if_false] at hct ⊢
        have hbp2 :
            (handleVisualFeedback false inp.now e).flags.buttonPressed = true := by
          simp [hbp]
        rw [handleButtonPress_of_pressed _ _ _ _ hbp2]
        simp [hbp]
      · simp only [Bool.not_eq_true] at hfb
        simp only [hfb, Bool.not_false, if_true] at hct ⊢
        rcases manageTrials_shape inp.now (handleVisualFeedback false inp.now e)
          with ⟨p1, p2, p3, p4⟩ | hadv
        · have hbp3 :
              (manageTrials inp.now
                  (handleVisualFeedback false inp.now e)).flags.buttonPressed
                = true := by
            rw [p4]; simp [hbp]
          rw [handleButtonPress_of_pressed _ _ _ _ hbp3]
          rw [p1, p2, p3, p4]
          simp [hbp]
        · exfalso
          rw [handleButtonPress_currentTrial, hadv] at hct
          simp at hct
  · intro now e
    constructor
    · intro hno
      by_cases ha : e.flags.awaitingResponse = true
      · have hb : ¬ (e.timing.stimulusDuration < wsub now e.trialStartTime) :=
          fun hb => hno ⟨ha, hb⟩
        simp [manageTrials, ha, hb,
              apply_ite (fun x : Engine => x.dataCollector.trials)]
      · simp only [Bool.not_eq_true] at ha
        simp [manageTrials, ha,
              apply_ite (fun x : Engine => x.dataCollector.trials)]
    · intro hw
      obtain ⟨ha, hb⟩ := hw
      constructor
      · simp [manageTrials, ha, hb, wsub_self]
      · intro hcap
        simp [manageTrials, ha, hb, wsub_self,
              evaluateTrialOutcome_trials_length, hcap]

/-- C3 witness: the three parts of `C3_theorem` at concrete inputs. -/
theorem C3_witness :
    (handleButtonPress 1100 true true eW3 = eW3) ∧
    ((loopStep fDemo gDemo inpW eW3).trialData.reactionTime =
       eW3.trialData.reactionTime ∧
     (loopStep fDemo gDemo inpW eW3).trialData.responseTime =
       eW3.trialData.responseTime ∧
     (loopStep fDemo gDemo inpW eW3).flags.responseIsConfirm =
       eW3.flags.responseIsConfirm ∧
     (loopStep fDemo gDemo inpW eW3).flags.buttonPressed = true) ∧
    ((manageTrials 1100 eC8).dataCollector.trials =
       eC8.dataCollector.trials) ∧
    ((manageTrials 5000 eC8).flags.awaitingResponse = false ∧
     (eC8.dataCollector.trials.length < MAX_DATA_ROWS →
       (manageTrials 5000 eC8).dataCollector.trials.length =
         eC8.dataCollector.trials.length + 1)) :=
  ⟨C3_theorem.1 1100 true true eW3 (by decide),
   C3_theorem.2.1 fDemo gDemo inpW eW3 (by decide) (by decide) (by decide),
   (C3_theorem.2.2 1100 eC8).1 (by decide),
   (C3_theorem.2.2 5000 eC8).2 ⟨by decide, by decide⟩⟩

/-! ### Claim C4 -/

/-- C4 counterexample: when the sequence-buffer allocation fails, `configure`
returns false but the timing parameters, n-back level and trial count have
already been overwritten — the engine is not left in its previous valid
configuration. -/
theorem C4_counterexample :
    eC4.1 = false ∧
    eC4.2.timing.stimulusDuration = 1500 ∧
    engineInit.timing.stimulusDuration = 2000 ∧
    eC4.2.nBackLevel = 3 ∧ engineInit.nBackLevel = 2 ∧
    eC4.2.maxTrials = 40 ∧ engineInit.maxTrials = 30 := by
  decide

/-- C4 (amended): `configure` returns false with no mutation whenever a
parameter constraint is violated or a session is RUNNING/PAUSED; but on an
allocation failure it returns false with the timing parameters, n-back level
and trial count already updated and the old sequence buffer freed — a
half-updated state. -/
theorem C4_theorem :
    (∀ (sd isi n nt : Nat) (sid : String) (sn : Nat) (ok : Bool) (now : Nat)
       (f g : Nat → Nat) (e : Engine),
       (sd < 100 ∨ isi < 100 ∨ n < 1 ∨ nt < 5 ∨ 50 < nt ∨ sid.length = 0) →
       configure sd isi n nt sid sn ok now f g e = (false, e)) ∧
    (∀ (sd isi n nt : Nat) (sid : String) (sn : Nat) (ok : Bool) (now : Nat)
       (f g : Nat → Nat) (e : Engine),
       (e.state = TaskState.running ∨ e.state = TaskState.paused) →
       configure sd isi n nt sid sn ok now f g e = (false, e)) ∧
    (∀ (sd isi n nt : Nat) (sid : String) (sn : Nat) (now : Nat)
       (f g : Nat → Nat) (e : Engine),
       ¬ (sd < 100 ∨ isi < 100 ∨ n < 1 ∨ nt < 5 ∨ 50 < nt ∨ sid.length = 0) →
       ¬ (e.state = TaskState.running ∨ e.state = TaskState.paused) →
       nt ≠ e.maxTrials →
       configure sd isi n nt sid sn false now f g e =
         (false, { e with
           timing := { e.timing with
             stimulusDuration := sd
             interStimulusInterval := isi }
           nBackLevel := n
           maxTrials := nt
           colorSequence := [] })) := by
  refine ⟨?_, ?_, ?_⟩
  · intro sd isi n nt sid sn ok now f g e hv
    unfold configure
    rw [if_pos hv]
  · intro sd isi n nt sid sn ok now f g e hst
    by_cases hv : (sd < 100 ∨ isi < 100 ∨ n < 1 ∨ nt < 5 ∨ 50 < nt ∨ sid.length = 0)
    · unfold configure
      rw [if_pos hv]
    · unfold configure
      rw [if_neg hv, if_pos hst]
  · intro sd isi n nt sid sn now f g e hv hst hnt
    unfold configure
    rw [if_neg hv, if_neg hst]
    simp only [hnt, if_true, Bool.not_false, ite_not]
    simp [hnt]

/-- C4 witness: the three parts of `C4_theorem` at concrete inputs. -/
theorem C4_witness :
    configure 50 1000 2 30 "S" 1 true 0 fDemo gDemo engineInit =
      (false, engineInit) ∧
    configure 1500 1000 2 30 "X" 1 true 0 fDemo gDemo eRun = (false, eRun) ∧
    configure 1500 1000 3 40 "S" 1 false 500 fDemo gDemo engineInit =
      (false, { engineInit with
        timing := { engineInit.timing with
          stimulusDuration := 1500
          interStimulusInterval := 1000 }
        nBackLevel := 3
        maxTrials := 40
        colorSequence := [] }) :=
  ⟨C4_theorem.1 50 1000 2 30 "S" 1 true 0 fDemo gDemo engineInit (by decide),
   C4_theorem.2.1 1500 1000 2 30 "X" 1 true 0 fDemo gDemo eRun (by decide),
   C4_theorem.2.2 1500 1000 3 40 "S" 1 500 fDemo gDemo engineInit
     (by decide) (by decide) (by decide)⟩

/-! ### Claim C5 -/

/-- C5 counterexample: a `start` command received while RUNNING is not
rejected — it resets the metrics, the trial index and the recorded data. -/
theorem C5_counterexample :
    eRun.state = TaskState.running ∧
    (processCommand 9000 fDemo gDemo Command.start eRun).metrics.correctResponses
      = 0 ∧
    eRun.metrics.correctResponses = 3 ∧
    (processCommand 9000 fDemo gDemo Command.start eRun).currentTrial = 0 ∧
    eRun.currentTrial = 4 ∧
    (processCommand 9000 fDemo gDemo Command.start eRun).dataCollector.trials
      = [] ∧
    eRun.dataCollector.trials ≠ [] := by
  decide

/-- C5 (amended): the `start` command invokes `startTask` unconditionally
from every state (including RUNNING and PAUSED, where it restarts the
session): metrics, trial index and records are reset and the engine
transitions to RUNNING. -/
theorem C5_theorem (now : Nat) (f g : Nat → Nat) (e : Engine) :
    processCommand now f g Command.start e = startTask now f g e ∧
    (startTask now f g e).metrics = metricsZero ∧
    (startTask now f g e).currentTrial = 0 ∧
    (startTask now f g e).dataCollector.trials = [] ∧
    (startTask now f g e).state = TaskState.running := by
  refine ⟨rfl, ?_, ?_, ?_, ?_⟩ <;>
    simp [startTask, startNextTrial, resetMetrics, DataCollector.reset,
          metricsZero]

/-! ### Claim C6 -/

/-- C6 counterexample: position 2 is among the overwritten positions
(draws `[2, 1]`), yet after generation `sequence[2] ≠ sequence[1]`: the
later overwrite at position 1 destroyed the match created at position 2. -/
theorem C6_counterexample :
    (2 ∈ chosenPositions 1 8 gDemo2) ∧
    (generateSequence 1 8 fDemo gDemo2).getD 2 0 ≠
      (generateSequence 1 8 fDemo gDemo2).getD 1 0 := by
  decide

/-- C6 (amended): `generateSequence` fills every position with a color index
in `[0, COLOR_COUNT)`, then performs exactly `maxTrials / 4` overwrite steps
at positions in `[nBackLevel, maxTrials)`, each setting
`sequence[p] := sequence[p - nBackLevel]`; a single overwrite makes `p` an
n-back match at the moment it is applied, but a later overwrite at
`p - nBackLevel` can break it, so an overwritten position need not remain a
match after generation. -/
theorem C6_theorem :
    (∀ (m : Nat) (f : Nat → Nat),
       (initialFill m f).length = m ∧ ∀ x ∈ initialFill m f, x < COLOR_COUNT) ∧
    (∀ (n m : Nat) (f g : Nat → Nat),
       generateSequence n m f g =
         (chosenPositions n m g).foldl (overwriteStep n) (initialFill m f)) ∧
    (∀ (n m : Nat) (g : Nat → Nat), (chosenPositions n m g).length = m / 4) ∧
    (∀ (n m : Nat) (g : Nat → Nat), n < m →
       ∀ p ∈ chosenPositions n m g, n ≤ p ∧ p < m) ∧
    (∀ (n : Nat) (seq : List Nat) (p : Nat), 1 ≤ n → n ≤ p → p < seq.length →
       (overwriteStep n seq p).getD p 0 =
         (overwriteStep n seq p).getD (p - n) 0) := by
  refine ⟨?_, ?_, ?_, ?_, ?_⟩
  · intro m f
    constructor
    · simp [initialFill]
    · intro x hx
      simp [initialFill] at hx
      obtain ⟨i, _, hi⟩ := hx
      have : f i % COLOR_COUNT < COLOR_COUNT := Nat.mod_lt _ (by decide)
      omega
  · intro n m f g
    rfl
  · intro n m g
    simp [chosenPositions]
  · intro n m g hnm p hp
    simp [chosenPositions] at hp
    obtain ⟨k, _, hk⟩ := hp
    have : g k % (m - n) < m - n := Nat.mod_lt _ (by omega)
    omega
  · intro n seq p hn hp1 hp2
    have hne : p - n ≠ p := by omega
    unfold overwriteStep
    rw [List.getD_eq_getElem?_getD, List.getD_eq_getElem?_getD,
        List.getElem?_set_eq_of_lt _ hp2]
    simp [List.getElem?_set_ne (Ne.symm hne), List.getD_eq_getElem?_getD]

/-- C6 witness: `C6_theorem` at concrete inputs. -/
theorem C6_witness :
    (initialFill 8 fDemo).length = 8 ∧
    generateSequence 1 8 fDemo gDemo2 =
      (chosenPositions 1 8 gDemo2).foldl (overwriteStep 1)
        (initialFill 8 fDemo) ∧
    (chosenPositions 1 8 gDemo2).length = 8 / 4 ∧
    (1 ≤ 2 ∧ 2 < 8) ∧
    (overwriteStep 1 [5, 7] 1).getD 1 0 = (overwriteStep 1 [5, 7] 1).getD 0 0 :=
  ⟨(C6_theorem.1 8 fDemo).1,
   C6_theorem.2.1 1 8 fDemo gDemo2,
   C6_theorem.2.2.1 1 8 gDemo2,
   C6_theorem.2.2.2.1 1 8 gDemo2 (by decide) 2 (by decide),
   C6_theorem.2.2.2.2 1 [5, 7] 1 (by decide) (by decide) (by decide)⟩

/-! ### Claim C7 -/

/-- C7: the `targetTrial` flag set at trial start equals
`index ≥ nBackLevel AND sequence[index] == sequence[index - nBackLevel]`,
is never set for `index < nBackLevel`, and agrees with the generation-time
target marking `sequenceTargetMark`. -/
theorem C7_theorem (now : Nat) (e : Engine) :
    (startNextTrial now e).flags.targetTrial =
      sequenceTargetMark e.nBackLevel e.colorSequence e.currentTrial ∧
    ((startNextTrial now e).flags.targetTrial = true ↔
      (e.nBackLevel ≤ e.currentTrial ∧
       e.colorSequence.getD e.currentTrial 0 =
         e.colorSequence.getD (e.currentTrial - e.nBackLevel) 0)) ∧
    (e.currentTrial < e.nBackLevel →
      (startNextTrial now e).flags.targetTrial = false) := by
  refine ⟨rfl, ?_, ?_⟩
  · simp [startNextTrial, sequenceTargetMark]
  · intro h
    simp [startNextTrial, sequenceTargetMark]
    omega

/-- C7 witness: `C7_theorem` at the freshly constructed engine (trial 0,
2-back), whose first trial can never be a target. -/
theorem C7_witness :
    (startNextTrial 5 engineInit).flags.targetTrial =
      sequenceTargetMark engineInit.nBackLevel engineInit.colorSequence
        engineInit.currentTrial ∧
    (startNextTrial 5 engineInit).flags.targetTrial = false :=
  ⟨(C7_theorem 5 engineInit).1, (C7_theorem 5 engineInit).2.2 (by decide)⟩

/-! ### Claim C8 -/

/-- C8 counterexample: pausing at 1500 ms (500 ms into a 2000 ms stimulus)
and resuming at 5000 ms leaves `trialStartTime`/`awaitingResponse` untouched
and the paused poll is fully inert, yet the trial times out on the resume
poll itself — the 3500 ms spent PAUSED was counted toward the stimulus
duration even though only 500 ms of running time had elapsed. -/
theorem C8_counterexample :
    eC8p.state = TaskState.paused ∧
    eC8p.trialStartTime = eC8.trialStartTime ∧
    eC8p.flags.awaitingResponse = true ∧
    eC8q = eC8p ∧
    eC8r.state = TaskState.running ∧
    eC8r.flags.awaitingResponse = false ∧
    eC8r.dataCollector.trials.length = 1 ∧
    wsub 1500 eC8.trialStartTime < eC8.timing.stimulusDuration := by
  decide

/-- C8 (amended): the paused-state step performs no work at all (a
commandless poll while PAUSED is the identity) and `pauseTask` changes only
the state field, so `trialStartTime`/`awaitingResponse` survive a
pause/resume; but the stimulus timeout compares wall-clock time against the
unadjusted `trialStartTime`, so the time spent PAUSED does count toward the
stimulus duration and a trial paused longer than `stimulusDuration` times
out on the first poll after resuming. -/
theorem C8_theorem :
    (∀ (f g : Nat → Nat) (inp : PollInput) (e : Engine),
       e.state = TaskState.paused → inp.command = none →
       loopStep f g inp e = e) ∧
    (∀ (p : Bool) (e : Engine), pauseTask p e =
       { e with state := if p then TaskState.paused else TaskState.running }) ∧
    (∀ (now : Nat) (e : Engine), e.flags.awaitingResponse = true →
       e.timing.stimulusDuration < wsub now e.trialStartTime →
       (manageTrials now e).flags.awaitingResponse = false) := by
  refine ⟨?_, ?_, ?_⟩
  · intro f g inp e hs hc
    simp [loopStep, hc, hs]
  · intro p e
    rfl
  · intro now e h1 h2
    simp [manageTrials, h1, h2, wsub_self]

/-- C8 witness: `C8_theorem` at concrete inputs — an inert paused poll, a
concrete `pauseTask`, and the wall-clock timeout on `eC8` at 5000 ms. -/
theorem C8_witness :
    loopStep fDemo gDemo inpW eW3 = eW3 ∧
    pauseTask true engineInit =
      { engineInit with
        state := if true then TaskState.paused else TaskState.running } ∧
    (manageTrials 5000 eC8).flags.awaitingResponse = false :=
  ⟨C8_theorem.1 fDemo gDemo inpW eW3 (by decide) (by decide),
   C8_theorem.2.1 true engineInit,
   C8_theorem.2.2 5000 eC8 (by decide) (by decide)⟩

/-! ### Claim C9 -/

/-- C9: the `get_data` command streams the report and moves to IDLE exactly
when the engine is in DATA_READY; in every other state it is a no-op that
leaves the whole engine (state and recorded data included) unchanged. -/
theorem C9_theorem (now : Nat) (f g : Nat → Nat) (e : Engine) :
    processCommand now f g Command.getData e =
      if e.state = TaskState.dataReady then { e with state := TaskState.idle }
      else e := by
  simp [processCommand, sendData]

/-! ### Claim C10 -/

/-- C10: whenever a response was made, the evaluation step adds the trial's
reaction time to `totalReactionTime` and increments `reactionTimeCount`,
regardless of channel or target status; with no response both accumulators
are unchanged. -/
theorem C10_theorem (now : Nat) (e : Engine) :
    (e.flags.buttonPressed = true →
      (evaluateTrialOutcome now e).metrics.totalReactionTime =
        e.metrics.totalReactionTime + e.trialData.reactionTime ∧
      (evaluateTrialOutcome now e).metrics.reactionTimeCount =
        e.metrics.reactionTimeCount + 1) ∧
    (e.flags.buttonPressed = false →
      (evaluateTrialOutcome now e).metrics.totalReactionTime =
        e.metrics.totalReactionTime ∧
      (evaluateTrialOutcome now e).metrics.reactionTimeCount =
        e.metrics.reactionTimeCount) := by
  constructor <;> intro h <;> simp [evaluateTrialOutcome, h] <;>
    (repeat' split) <;> simp

/-- C10 witness: `C10_theorem` at a pressed trial (reaction time 123) and at
a silent trial. -/
theorem C10_witness :
    ((evaluateTrialOutcome 7 eW10).metrics.totalReactionTime =
       eW10.metrics.totalReactionTime + eW10.trialData.reactionTime ∧
     (evaluateTrialOutcome 7 eW10).metrics.reactionTimeCount =
       eW10.metrics.reactionTimeCount + 1) ∧
    ((evaluateTrialOutcome 7 engineInit).metrics.totalReactionTime =
       engineInit.metrics.totalReactionTime ∧
     (evaluateTrialOutcome 7 engineInit).metrics.reactionTimeCount =
       engineInit.metrics.reactionTimeCount) :=
  ⟨(C10_theorem 7 eW10).1 (by decide),
   (C10_theorem 7 engineInit).2 (by decide)⟩
